import Mathlib

/-!
Verification of the file-classification job pipeline
(`tanaymurdia/join-the-siege`) against its natural-language specification.

The development shallowly embeds the Python sources:

* `src/src/services/message_broker.py` — Redis list / key-value operations
  are modelled as pure state transitions and as explicit operation traces.
* `src/src/services/worker.py` — `process_task` as a pure transformer of a
  small world (file system set + published results).
* `src/src/services/worker_scaling.py` — scaling state plus a step function
  over monitor-tick / manual-scale events.
* `src/src/main.py` — the upload-validation pipeline of `start_classification`.
* `src/model/core/classifier_trainer.py` — the keyword scoring and override
  rule of `AdvancedFileClassifier.predict` (the learned model itself is the
  opaque parameter `model_prediction`, as fixed by the spec's scope section).

Machine floats from the source (`0.65`, score ratios) are modelled exactly
over `ℚ`; for the integer keyword scores that arise the two agree.
-/

namespace Pipeline

/-! ## Redis list model

`redis_client.lpush` pushes on the LEFT of the list and `redis_client.blpop`
pops from the LEFT.  The head of the Lean list is the left end. -/

/-- `LPUSH`: insert at the left end (head). -/
def lpush (queue : List String) (payload : String) : List String :=
  payload :: queue

/-- `BLPOP` (immediate view): take from the left end (head); `none` models
the timeout when the list is empty. -/
def blpop (queue : List String) : Option (String × List String) :=
  match queue with
  | [] => none
  | x :: rest => some (x, rest)

/-- Enqueue a batch of payloads in submission order, each via `lpush`,
exactly as successive `send_classification_task` calls do. -/
def pushAll (queue : List String) (payloads : List String) : List String :=
  payloads.foldl lpush queue

/-- Drain the queue with repeated `blpop`, listing payloads in pop order:
what a single worker looping on `get_next_classification_task` receives. -/
def drain : List String → List String
  | [] => []
  | x :: rest => x :: drain rest

/-! ## Task broker records and operation traces
(`MessageBroker.send_classification_task`) -/

/-- The enqueued task-data record built in `send_classification_task`. -/
structure TaskData where
  task_id : String
  file_path : String
  filename : String
  result_queue : String
  taskStatus : String
  deriving DecidableEq, Repr

/-- The initial status record written by `send_classification_task`. -/
structure StatusRec where
  statusField : String
  filename : String
  task_id : String
  deriving DecidableEq, Repr

/-- Values stored by broker write operations. -/
inductive RecVal where
  | task (t : TaskData)
  | statusOf (s : StatusRec)
  deriving DecidableEq, Repr

/-- The broker operations `send_classification_task` issues, in order. -/
inductive BrokerOp where
  | setex (key : String) (ttlSeconds : Nat) (value : RecVal)
  | listPushLeft (key : String) (value : RecVal)
  deriving DecidableEq, Repr

def BrokerOp.isSetex : BrokerOp → Bool
  | .setex _ _ _ => true
  | _ => false

def BrokerOp.isPush : BrokerOp → Bool
  | .listPushLeft _ _ => true
  | _ => false

/-- `self.task_expiry = 86400`. -/
def task_expiry : Nat := 86400

/-- `self.result_queue_prefix = 'classification_results_'`. -/
def resultQueuePre : String := "classification_results_"

/-- Outcome of `send_classification_task`: the returned pair plus the
records it builds. `task_id` is the freshly minted UUID, supplied here as
a parameter because its minting is external randomness. -/
structure SendResult where
  taskId : String
  resultQueue : String
  taskData : TaskData
  statusRec : StatusRec
  deriving DecidableEq, Repr

/-- `MessageBroker.send_classification_task(file_path, filename)` with the
minted UUID `task_id` made explicit. -/
def send_classification_task (task_id file_path filename : String) : SendResult :=
  let result_queue := resultQueuePre ++ task_id
  let task_data : TaskData :=
    { task_id := task_id
      file_path := file_path
      filename := filename
      result_queue := result_queue
      taskStatus := "pending" }
  let status_rec : StatusRec :=
    { statusField := "pending", filename := filename, task_id := task_id }
  { taskId := task_id
    resultQueue := result_queue
    taskData := task_data
    statusRec := status_rec }

/-- The ordered trace of broker operations issued by
`send_classification_task`: `SETEX task_data_<id>`, then
`SETEX task_status_<id>`, then `LPUSH classification_tasks`. -/
def sendTaskOps (task_id file_path filename : String) : List BrokerOp :=
  let r := send_classification_task task_id file_path filename
  [ .setex ("task_data_" ++ task_id) task_expiry (.task r.taskData),
    .setex ("task_status_" ++ task_id) task_expiry (.statusOf r.statusRec),
    .listPushLeft "classification_tasks" (.task r.taskData) ]

/-- No `SETEX` record write occurs after any list push in the trace. -/
def recordWritesPrecedePush : List BrokerOp → Bool
  | [] => true
  | op :: rest =>
      (if op.isPush then rest.all (fun o => ¬ o.isSetex) else true)
        && recordWritesPrecedePush rest

/-! ## Status-record update (`MessageBroker.update_task_status`)

The status record is a JSON object; it is modelled as an association list
of string keys to JSON scalar values, with Python-dict assignment semantics
(replace the binding if the key is present, append otherwise). -/

/-- JSON scalar values appearing in status records. -/
inductive JVal where
  | str (s : String)
  | jbool (b : Bool)
  deriving DecidableEq, Repr

/-- `status_data[key] = value` on a JSON object. -/
def setField : List (String × JVal) → String → JVal → List (String × JVal)
  | [], key, v => [(key, v)]
  | (k, w) :: rest, key, v =>
      if k = key then (key, v) :: rest else (k, w) :: setField rest key v

/-- Read a field of a JSON object (first binding wins, as in a dict). -/
def getField (record : List (String × JVal)) (key : String) : Option JVal :=
  match record with
  | [] => none
  | (k, w) :: rest => if k = key then some w else getField rest key

/-- The record rewrite inside `update_task_status` once the current record
has been fetched: always set `status`; set `predicted_type`, `success`,
`error` only when a (non-`None`) new value is supplied. -/
def applyStatusUpdate (record : List (String × JVal)) (statusArg : String)
    (predicted_type : Option String) (success : Option Bool)
    (error : Option String) : List (String × JVal) :=
  let r := setField record "status" (.str statusArg)
  let r := match predicted_type with
           | some p => setField r "predicted_type" (.str p)
           | none => r
  let r := match success with
           | some b => setField r "success" (.jbool b)
           | none => r
  match error with
  | some e => setField r "error" (.str e)
  | none => r

/-- `MessageBroker.update_task_status`: `none` (record expired / missing)
yields `False` in Python and leaves nothing written; otherwise the fetched
record is rewritten and `SETEX`-stored again. -/
def update_task_status (current : Option (List (String × JVal)))
    (statusArg : String) (predicted_type : Option String)
    (success : Option Bool) (error : Option String) :
    Option (List (String × JVal)) :=
  match current with
  | none => none
  | some record =>
      some (applyStatusUpdate record statusArg predicted_type success error)

/-! ## Worker (`ClassificationWorker.process_task`) -/

/-- The fields of the popped task dict that `process_task` reads. -/
structure WTask where
  task_id : String
  file_path : String
  result_queue : String
  deriving DecidableEq, Repr

/-- A result object pushed onto the result channel by
`send_classification_result`. -/
structure ResultMsg where
  predicted_type : String
  success : Bool
  error : Option String
  deriving DecidableEq, Repr

/-- The worker's world: the set of existing files, and the classifier's
behaviour on each path (`.ok label` or `.error message`, the latter
modelling a raised exception). -/
structure WorkerWorld where
  fs : List String
  classify : String → Except String String

/-- `os.path.join('/app', file_path)`: absolute paths are returned as-is. -/
def joinApp (file_path : String) : String :=
  if "/".isPrefixOf file_path then file_path else "/app/" ++ file_path

/-- Observable outcome of `process_task`: result-channel pushes
(channel, message), status-record transitions (task id, new status), and
the final file system. -/
structure ProcOut where
  published : List (String × ResultMsg)
  statusUpdates : List (String × String)
  fs : List String
  deriving DecidableEq, Repr

/-- `ClassificationWorker.cleanup_temp_file`: best-effort unlink. -/
def cleanup_temp_file (fs : List String) (file_path : String) : List String :=
  if file_path ∈ fs then fs.erase file_path else fs

/-- `ClassificationWorker.process_task`.  Path resolution tries the given
path, then `/app`-joined; classification errors and unresolvable paths are
caught, publish a `failed` result, and — exactly as in the source — do NOT
reach the `cleanup_temp_file` call, which sits only on the success path. -/
def process_task (w : WorkerWorld) (task : WTask) : ProcOut :=
  let failOut (msg : String) : ProcOut :=
    { published := [(task.result_queue,
        { predicted_type := "unknown", success := false, error := some msg })]
      statusUpdates := [(task.task_id, "failed")]
      fs := w.fs }
  if task.file_path ∈ w.fs then
    match w.classify task.file_path with
    | .ok label =>
        { published := [(task.result_queue,
            { predicted_type := label, success := true, error := none })]
          statusUpdates := [(task.task_id, "completed")]
          fs := cleanup_temp_file w.fs task.file_path }
    | .error msg => failOut msg
  else if joinApp task.file_path ∈ w.fs then
    match w.classify (joinApp task.file_path) with
    | .ok label =>
        { published := [(task.result_queue,
            { predicted_type := label, success := true, error := none })]
          statusUpdates := [(task.task_id, "completed")]
          fs := cleanup_temp_file w.fs (joinApp task.file_path) }
    | .error msg => failOut msg
  else
    failOut ("File not found at " ++ task.file_path ++ " or "
      ++ joinApp task.file_path)

/-! ## Scaling controller (`WorkerScalingService`)

Wall-clock times are naturals (seconds).  The orchestrator call inside
`scale_workers` can fail (docker-compose present but erroring), in which
case the method returns without updating any state; the boolean `ok`
models that external outcome. -/

/-- In-process state of `WorkerScalingService` (config plus the two
mutable fields `current_worker_count` and `last_scaling_time`). -/
structure ScalingState where
  worker_min_count : Nat
  worker_max_count : Nat
  queue_high_threshold : Nat
  queue_low_threshold : Nat
  current_worker_count : Nat
  last_scaling_time : Nat
  deriving DecidableEq, Repr

/-- The clamping inside `scale_workers`: raise to the minimum first, then
cap at the maximum, exactly in source order. -/
def clampTarget (st : ScalingState) (target_count : Nat) : Nat :=
  let t1 := if target_count < st.worker_min_count
            then st.worker_min_count else target_count
  if t1 > st.worker_max_count then st.worker_max_count else t1

/-- `WorkerScalingService.scale_workers(target_count)` at wall time `now`:
early-return when the target equals the current count, otherwise clamp to
`[worker_min_count, worker_max_count]` and, when the orchestrator call
succeeds or docker is absent (`ok`), record the new count and the scaling
time. -/
def scale_workers (st : ScalingState) (target_count now : Nat) (ok : Bool) :
    ScalingState :=
  if target_count = st.current_worker_count then st
  else if ok then
    { st with current_worker_count := clampTarget st target_count,
              last_scaling_time := now }
  else st

/-- `WorkerScalingService.check_and_apply_scaling(queue_length,
worker_count)`: scale-up and scale-down decisions.  (`current - 1` is `Nat`
subtraction; the subsequent `max` with the minimum makes this agree with
the Python integer arithmetic for all states satisfying the bounds
invariant.) -/
def check_and_apply_scaling (st : ScalingState)
    (queue_length worker_count now : Nat) (ok : Bool) : ScalingState :=
  if queue_length > st.queue_high_threshold
      ∧ worker_count < st.worker_max_count then
    scale_workers st
      (min st.worker_max_count
        (st.current_worker_count + max 1 (queue_length / 10))) now ok
  else if queue_length < st.queue_low_threshold
      ∧ worker_count > st.worker_min_count then
    scale_workers st
      (max st.worker_min_count (st.current_worker_count - 1)) now ok
  else st

/-- One external stimulus acting on the scaling state: a tick of
`monitor_loop` (with the observed queue length and worker count), or a
`POST /scaling/workers/n` request, which calls `scale_workers` directly. -/
inductive ScalingEvent where
  | monitor (queue_length worker_count now : Nat) (ok : Bool)
  | manual (target now : Nat) (ok : Bool)
  deriving DecidableEq, Repr

def ScalingEvent.time : ScalingEvent → Nat
  | .monitor _ _ now _ => now
  | .manual _ now _ => now

/-- State transition for one event.  A monitor tick first applies the
cooldown guard `now - last_scaling_time < 60` and skips scaling when it
holds; a manual request reaches `scale_workers` with no such guard. -/
def scalingStep (st : ScalingState) : ScalingEvent → ScalingState
  | .monitor q w now ok =>
      if now - st.last_scaling_time < 60 then st
      else check_and_apply_scaling st q w now ok
  | .manual target now ok => scale_workers st target now ok

/-- Run a sequence of events from an initial state. -/
def scalingRun (st : ScalingState) (events : List ScalingEvent) :
    ScalingState :=
  events.foldl scalingStep st

/-- Times of the events that actually change the worker count — the
"scaling actions" of the spec. -/
def actionTimes (st : ScalingState) : List ScalingEvent → List Nat
  | [] => []
  | e :: rest =>
      let st2 := scalingStep st e
      if st2.current_worker_count ≠ st.current_worker_count then
        e.time :: actionTimes st2 rest
      else actionTimes st2 rest

/-- Consecutive entries of the list are at least `gap` apart. -/
def gapsAtLeast (gap : Nat) : List Nat → Bool
  | a :: b :: rest => decide (a + gap ≤ b) && gapsAtLeast gap (b :: rest)
  | _ => true

/-- The initial scaling state under the documented default configuration:
`MIN_WORKERS=2`, `MAX_WORKERS=10`, thresholds 20/5, `WORKER_REPLICAS=3`.
(`last_scaling_time` starts at `time.time() - 120`, i.e. outside the
cooldown window; `0` here with the first tick at time `≥ 120`.) -/
def defaultScalingState : ScalingState :=
  { worker_min_count := 2
    worker_max_count := 10
    queue_high_threshold := 20
    queue_low_threshold := 5
    current_worker_count := 3
    last_scaling_time := 0 }

/-! ## Ingest API (`start_classification` in `src/src/main.py`) -/

/-- `str.lower()` (character-wise ASCII lowering, matching the Python
call on the ASCII keyword and extension data involved). -/
def lowerStr (s : String) : String :=
  String.mk (s.toList.map Char.toLower)

/-- `str.strip()` is truthy: some non-whitespace character exists. -/
def stripNonempty (s : String) : Bool :=
  s.toList.any (fun c => ¬ c.isWhitespace)

/-- `ALLOWED_FILE_EXTENSIONS`. -/
def allowedFileExtensions : List String :=
  [".pdf", ".docx", ".xlsx", ".jpg", ".jpeg", ".png", ".txt"]

/-- `MAX_FILE_SIZE = 50 * 1024 * 1024`. -/
def maxFileSize : Nat := 50 * 1024 * 1024

/-- Index of the last occurrence of `c`, if any. -/
def lastIdxOf (c : Char) : List Char → Option Nat
  | [] => none
  | x :: xs =>
      match lastIdxOf c xs with
      | some i => some (i + 1)
      | none => if x = c then some 0 else none

/-- The extension part of `os.path.splitext(filename)[1]` for a filename
without directory separators: the suffix from the last dot, unless every
character before that dot is itself a dot (so `.bashrc`-style names have
no extension). -/
def splitextExt (s : String) : String :=
  let cs := s.toList
  match lastIdxOf '.' cs with
  | none => ""
  | some i =>
      if (cs.take i).any (fun ch => ch ≠ '.') then
        String.mk (cs.drop i)
      else ""

/-- Observable outcome of one `POST /classify_file` request. -/
structure ClassifyOutcome where
  httpStatus : Nat
  brokerOps : List BrokerOp
  tempFilesWritten : List String
  tempFilesRemaining : List String
  deriving DecidableEq, Repr

/-- `start_classification`: extension check, size check, temp-file
staging under `files/temp/<uuid>_<filename>`, then broker submission.
`uuid` (the staging prefix) and `task_id` are the externally minted UUIDs;
`brokerUp` tells whether Redis is reachable (a connection error unlinks
the staged file and maps to 503). -/
def start_classification (filename : String) (size : Nat)
    (uuid task_id : String) (brokerUp : Bool) : ClassifyOutcome :=
  let file_ext := lowerStr (splitextExt filename)
  if ¬ allowedFileExtensions.contains file_ext then
    { httpStatus := 415, brokerOps := [], tempFilesWritten := [],
      tempFilesRemaining := [] }
  else if size > maxFileSize then
    { httpStatus := 413, brokerOps := [], tempFilesWritten := [],
      tempFilesRemaining := [] }
  else
    let temp_file_path := "files/temp/" ++ uuid ++ "_" ++ filename
    if brokerUp then
      { httpStatus := 202
        brokerOps := sendTaskOps task_id temp_file_path filename
        tempFilesWritten := [temp_file_path]
        tempFilesRemaining := [temp_file_path] }
    else
      { httpStatus := 503, brokerOps := [],
        tempFilesWritten := [temp_file_path], tempFilesRemaining := [] }

/-! ## Classifier (`AdvancedFileClassifier.predict`, `model/core`)

The learned gradient-boosted model is out of the verified core (spec §1);
its output on the file under classification enters as the opaque parameter
`model_prediction`.  Text extraction likewise enters as the already
extracted `content` string.  The keyword scoring, the confidence ratio and
the override rule are transcribed from the source; the float constant
`0.65` and the score ratio are represented exactly in `ℚ`. -/

/-- `needle in haystack` on character lists (Python `in` for strings). -/
def isSub (needle : List Char) : List Char → Bool
  | [] => needle.isEmpty
  | c :: rest => needle.isPrefixOf (c :: rest) || isSub needle rest

/-- `score` of one category: the number of its keywords occurring
(case-insensitively) in the content. -/
def kwScore (keywords : List String) (content : String) : Nat :=
  (keywords.filter
    (fun k => isSub (lowerStr k).toList (lowerStr content).toList)).length

/-- `type_scores` in document-type insertion order. -/
def typeScores (docTypes : List (String × List String)) (content : String) :
    List (String × Nat) :=
  docTypes.map (fun p => (p.1, kwScore p.2 content))

/-- Insert into a descending-by-score list after all entries with score
`≥` the new one (so earlier-listed categories stay first on ties). -/
def insertDesc (x : String × Nat) : List (String × Nat) → List (String × Nat)
  | [] => [x]
  | y :: ys => if y.2 ≥ x.2 then y :: insertDesc x ys else x :: y :: ys

/-- Python `sorted(..., key=score, reverse=True)`: stable descending. -/
def sortDesc (l : List (String × Nat)) : List (String × Nat) :=
  l.foldl (fun acc x => insertDesc x acc) []

/-- The three loop variables of the keyword pass of `predict`.  The float
`keyword_confidence` is kept as an exact fraction `confNum / confDen`
(denominator always positive: `0/1` initially, `1/1`, or
`score₁/(score₁+score₂)`); the rational it denotes is recovered by
`KwState.keyword_confidence`. -/
structure KwState where
  highest_score : Nat
  keyword_prediction : Option String
  confNum : Nat
  confDen : Nat
  deriving DecidableEq, Repr

/-- The exact value of the `keyword_confidence` variable. -/
def KwState.keyword_confidence (st : KwState) : ℚ :=
  (st.confNum : ℚ) / (st.confDen : ℚ)

/-- `sorted_scores[1][1]["score"]` — the globally second-ranked score
(`0` when the list is shorter, in which case it is never read because the
`len(sorted_scores) > 1` test fails first). -/
def secondScore (sortedScores : List (String × Nat)) : Nat :=
  ((sortedScores.get? 1).map Prod.snd).getD 0

/-- One iteration of the loop over `sorted_scores`, with the enclosing
list's length and second-ranked score passed in. -/
def kwStep (len second : Nat) (st : KwState) (p : String × Nat) : KwState :=
  if p.2 > 0 ∧ p.2 > st.highest_score then
    { highest_score := p.2
      keyword_prediction := some p.1
      confNum := if len > 1 ∧ second > 0 then p.2 else 1
      confDen := if len > 1 ∧ second > 0 then p.2 + second else 1 }
  else st

/-- The loop over `sorted_scores`: the first strictly-higher positive
score installs the prediction; the confidence always reads the globally
second-ranked score `sorted_scores[1]`. -/
def kwFold (sortedScores : List (String × Nat)) : KwState :=
  sortedScores.foldl (kwStep sortedScores.length (secondScore sortedScores))
    { highest_score := 0, keyword_prediction := none,
      confNum := 0, confDen := 1 }

/-- Keyword statistics of `predict` on extracted `content`. -/
def keywordState (docTypes : List (String × List String))
    (content : String) : KwState :=
  kwFold (sortDesc (typeScores docTypes content))

/-- The tail of `predict` after feature extraction: keyword pass (guarded
by `content.strip()`) followed by the override rule.  The float test
`keyword_confidence > 0.65` is the exact cross-multiplied comparison
`13 * confDen < 20 * confNum` (equivalent over `ℚ` because `confDen > 0`;
see `keyword_confidence_gt_iff`). -/
def predictCore (model_prediction : String)
    (docTypes : List (String × List String)) (content : String) : String :=
  let st := if stripNonempty content then keywordState docTypes content
            else { highest_score := 0, keyword_prediction := none,
                   confNum := 0, confDen := 1 }
  match st.keyword_prediction with
  | some k =>
      if st.highest_score ≥ 3 ∧ 13 * st.confDen < 20 * st.confNum
          ∧ k ≠ model_prediction then k
      else model_prediction
  | none => model_prediction

/-- The body of the `try` block in `predict`: with no loaded classifier
and the artifact absent, `load_model` fails and a `ValueError` is
raised. -/
def predictInner (classifier : Option String)
    (docTypes : List (String × List String)) (content : String) :
    Except String String :=
  match classifier with
  | none =>
      .error "No classifier model available. Train or load a model first."
  | some model_prediction =>
      .ok (predictCore model_prediction docTypes content)

/-- `AdvancedFileClassifier.predict`: the surrounding `except` clause maps
any raised error to the string `unknown_file`. -/
def predict (classifier : Option String)
    (docTypes : List (String × List String)) (content : String) : String :=
  match predictInner classifier docTypes content with
  | .ok r => r
  | .error _ => "unknown_file"

/-- A compact stand-in for the keyword table of
`SyntheticDataGenerator.document_types`, in its insertion order, used for
concrete evaluations (first keywords of each category). -/
def docTypesSample : List (String × List String) :=
  [ ("drivers_license", ["driver", "license", "licence", "identification"]),
    ("bank_statement", ["account", "balance", "transaction", "statement"]),
    ("invoice", ["invoice", "bill", "payment", "due date"]),
    ("tax_return", ["tax", "return", "IRS", "income"]),
    ("medical_record", ["patient", "diagnosis", "prescription", "doctor"]),
    ("insurance_claim", ["claim", "policy", "insurance", "coverage"]) ]

/-! ## Helper lemmas -/

theorem drain_eq_id (q : List String) : drain q = q := by
  induction q with
  | nil => rfl
  | cons x rest ih => simpa [drain] using ih

theorem pushAll_eq (q : List String) (ps : List String) :
    pushAll q ps = ps.reverse ++ q := by
  induction ps generalizing q with
  | nil => simp [pushAll]
  | cons p ps ih =>
      simp only [pushAll, List.foldl_cons, List.reverse_cons] at ih ⊢
      rw [ih (lpush q p)]
      simp [lpush]

/-! ## Claims -/

/-- C1 (counterexample): submitting `t1` then `t2` via
`send_classification_task`'s `LPUSH` and popping twice via
`get_next_classification_task`'s `BLPOP` returns `t2` first: the first
claim does NOT return the first submitted task, so the pops do not follow
enqueue order and both operations act on the same (left) end of
`classification_tasks`. -/
theorem queue_not_fifo_counterexample :
    drain (pushAll [] ["t1", "t2"]) = ["t2", "t1"]
      ∧ (["t2", "t1"] : List String) ≠ ["t1", "t2"] := by
  constructor
  · rfl
  · decide

/-- C1 (amended): `send_classification_task` pushes with `LPUSH` and
`get_next_classification_task` pops with `BLPOP` — the same left end of
`classification_tasks` — so a single worker draining tasks that were
enqueued before consumption receives them in REVERSE enqueue order
(LIFO). -/
theorem queue_lifo_order (tasks : List String) :
    drain (pushAll [] tasks) = tasks.reverse := by
  rw [drain_eq_id, pushAll_eq]
  simp

/-- C2 (counterexample): for the concrete task id `abc`, the channel
returned by `send_classification_task` is
`classification_results_abc`, not `results/abc` as the claim states. -/
theorem result_channel_name_counterexample :
    (send_classification_task "abc" "p" "f.pdf").resultQueue
        = "classification_results_abc"
      ∧ (send_classification_task "abc" "p" "f.pdf").resultQueue
        ≠ "results/abc" := by
  constructor
  · rfl
  · decide

/-- C2 (amended): for every successful submit, the result channel
identifier returned by `send_classification_task` and the one stored in
the task-data record both equal `classification_results_<task_id>`
(prefix `self.result_queue_prefix`), derived from the minted task id. -/
theorem result_channel_name (task_id file_path filename : String) :
    (send_classification_task task_id file_path filename).resultQueue
        = "classification_results_" ++ task_id
      ∧ (send_classification_task task_id file_path filename).taskData.result_queue
        = "classification_results_" ++ task_id :=
  ⟨rfl, rfl⟩

/-- C3 (code evaluated at the failing input): when the staged file exists
and the classifier raises, `process_task` publishes the terminal result
`predicted_type = "unknown"`, `success = false` with the error string and
marks the task `failed` — but the staged temp file is STILL PRESENT
afterwards, because the `except` branch never calls `cleanup_temp_file`;
on the success path the same file is unlinked. -/
theorem process_task_failure_keeps_temp_file :
    process_task
        { fs := ["files/temp/u_x.pdf"], classify := fun _ => .error "boom" }
        { task_id := "tid1", file_path := "files/temp/u_x.pdf",
          result_queue := "classification_results_tid1" }
      = { published := [("classification_results_tid1",
            { predicted_type := "unknown", success := false,
              error := some "boom" })]
          statusUpdates := [("tid1", "failed")]
          fs := ["files/temp/u_x.pdf"] }
    ∧ process_task
        { fs := ["files/temp/u_x.pdf"], classify := fun _ => .ok "invoice" }
        { task_id := "tid1", file_path := "files/temp/u_x.pdf",
          result_queue := "classification_results_tid1" }
      = { published := [("classification_results_tid1",
            { predicted_type := "invoice", success := true, error := none })]
          statusUpdates := [("tid1", "completed")]
          fs := [] } :=
  ⟨rfl, rfl⟩

/-- C4 (counterexample): with the model artifact absent (`classifier =
none`) and content whose keyword prediction is `invoice`, `predict`
returns `unknown_file` — the `load_model` failure raises a `ValueError`
that the catch-all turns into `unknown_file` — and not the best-effort
keyword prediction. -/
theorem predict_no_model_counterexample :
    predict none docTypesSample "invoice bill payment due date please"
        = "unknown_file"
      ∧ (keywordState docTypesSample
          "invoice bill payment due date please").keyword_prediction
        = some "invoice"
      ∧ ("unknown_file" : String) ≠ "invoice" := by
  refine ⟨rfl, by decide, by decide⟩

/-- C4 (amended): whenever no classifier model is available (the
serialized artifact is absent, so `load_model` fails), `predict` returns
the fallback label `unknown_file` for every input, never the keyword
prediction; the load failure itself only logs a warning at service
startup. -/
theorem predict_no_model_unknown_file
    (docTypes : List (String × List String)) (content : String) :
    predict none docTypes content = "unknown_file" :=
  rfl

theorem keyword_confidence_gt_iff (st : KwState) (h : 0 < st.confDen) :
    st.keyword_confidence > 13/20 ↔ 13 * st.confDen < 20 * st.confNum := by
  have hd : (0 : ℚ) < (st.confDen : ℚ) := by exact_mod_cast h
  rw [KwState.keyword_confidence, gt_iff_lt,
    div_lt_div_iff₀ (by norm_num) hd]
  rw [show (13 : ℚ) * st.confDen = ((13 * st.confDen : ℕ) : ℚ) by push_cast; ring,
    show (st.confNum : ℚ) * 20 = ((20 * st.confNum : ℕ) : ℚ) by push_cast; ring]
  exact_mod_cast Iff.rfl

theorem kwStep_confDen_pos (len second : Nat) (st : KwState)
    (p : String × Nat) (h : 0 < st.confDen) :
    0 < (kwStep len second st p).confDen := by
  unfold kwStep
  split_ifs with h1 h2
  · show 0 < p.2 + second
    omega
  · show 0 < 1
    norm_num
  · exact h

theorem foldl_kwStep_confDen_pos (len second : Nat)
    (m : List (String × Nat)) :
    ∀ (st : KwState), 0 < st.confDen →
      0 < (m.foldl (kwStep len second) st).confDen := by
  induction m with
  | nil => intro st h; simpa using h
  | cons p rest ih =>
      intro st h
      simp only [List.foldl_cons]
      exact ih _ (kwStep_confDen_pos len second st p h)

theorem keywordState_confDen_pos (docTypes : List (String × List String))
    (content : String) : 0 < (keywordState docTypes content).confDen := by
  unfold keywordState kwFold
  exact foldl_kwStep_confDen_pos _ _ _ _ (by norm_num)

theorem predictCore_eq (model_prediction : String)
    (docTypes : List (String × List String)) (content : String)
    (hc : stripNonempty content = true) :
    predictCore model_prediction docTypes content =
      match (keywordState docTypes content).keyword_prediction with
      | some k =>
          if (keywordState docTypes content).highest_score ≥ 3
              ∧ 13 * (keywordState docTypes content).confDen
                  < 20 * (keywordState docTypes content).confNum
              ∧ k ≠ model_prediction
          then k else model_prediction
      | none => model_prediction := by
  unfold predictCore
  rw [if_pos hc]

/-- C5 (amended): for every classification whose extracted text is
non-blank, the final label equals the keyword prediction IF its top score
is at least 3, its confidence exceeds 0.65 and it differs from the model
prediction; in every other case the final label equals the model
prediction (with which the keyword prediction may coincide — the reason
the claim's `if and only if` fails, see the counterexample). -/
theorem predict_override_rule (model_prediction : String)
    (docTypes : List (String × List String)) (content : String)
    (hc : stripNonempty content = true) :
    (∀ k, (keywordState docTypes content).keyword_prediction = some k →
        predictCore model_prediction docTypes content =
          if (keywordState docTypes content).highest_score ≥ 3
              ∧ (keywordState docTypes content).keyword_confidence > 13/20
              ∧ k ≠ model_prediction
          then k else model_prediction)
      ∧ ((keywordState docTypes content).keyword_prediction = none →
          predictCore model_prediction docTypes content = model_prediction) := by
  have hd := keywordState_confDen_pos docTypes content
  have hiff := keyword_confidence_gt_iff (keywordState docTypes content) hd
  constructor
  · intro k hk
    rw [predictCore_eq model_prediction docTypes content hc, hk]
    simp only [hiff]
  · intro hk
    rw [predictCore_eq model_prediction docTypes content hc, hk]

/-- C5 (witness): on `invoice bill payment due date please` the keyword
prediction is `invoice` with score 4 and confidence 1, and the final label
follows the override rule against the model prediction `tax_return`. -/
theorem predict_override_rule_witness :
    predictCore "tax_return" docTypesSample
        "invoice bill payment due date please" =
      if (keywordState docTypesSample
            "invoice bill payment due date please").highest_score ≥ 3
          ∧ (keywordState docTypesSample
              "invoice bill payment due date please").keyword_confidence
            > 13/20
          ∧ "invoice" ≠ "tax_return"
      then "invoice" else "tax_return" :=
  (predict_override_rule "tax_return" docTypesSample
    "invoice bill payment due date please" (by decide)).1 "invoice" (by decide)

/-- C5 (counterexample): when the keyword prediction coincides with the
model prediction (`invoice`, score 4 ≥ 3, confidence 1 > 0.65), the final
label still equals the keyword prediction although the claim's right-hand
side (which requires the two predictions to differ) is false — so the
claimed `if and only if` does not hold. -/
theorem override_iff_counterexample :
    (keywordState docTypesSample
        "invoice bill payment due date please").keyword_prediction
      = some "invoice"
    ∧ ¬ ((predictCore "invoice" docTypesSample
            "invoice bill payment due date please" = "invoice")
          ↔ ((keywordState docTypesSample
                "invoice bill payment due date please").highest_score ≥ 3
              ∧ (keywordState docTypesSample
                  "invoice bill payment due date please").keyword_confidence
                > 13/20
              ∧ ("invoice" : String) ≠ "invoice")) := by
  refine ⟨by decide, fun hiff => ?_⟩
  have h1 : predictCore "invoice" docTypesSample
      "invoice bill payment due date please" = "invoice" := by decide
  exact (hiff.mp h1).2.2 rfl

/-- C6: `send_classification_task` issues exactly three broker
operations, in this order: the TTL-bounded task-data `SETEX`, the
TTL-bounded task-status `SETEX`, and only then the `LPUSH` making the task
visible on `classification_tasks` — so no record write follows the push
and a popped task always has its status record already written. -/
theorem record_writes_precede_queue_push
    (task_id file_path filename : String) :
    sendTaskOps task_id file_path filename =
      [ .setex ("task_data_" ++ task_id) task_expiry
          (.task (send_classification_task task_id file_path filename).taskData),
        .setex ("task_status_" ++ task_id) task_expiry
          (.statusOf (send_classification_task task_id file_path filename).statusRec),
        .listPushLeft "classification_tasks"
          (.task (send_classification_task task_id file_path filename).taskData) ]
      ∧ recordWritesPrecedePush (sendTaskOps task_id file_path filename)
        = true :=
  ⟨rfl, rfl⟩

/-- C7: a `POST /classify_file` whose filename extension (lower-cased) is
outside `ALLOWED_FILE_EXTENSIONS` is answered 415 before any other work:
no broker operation is issued, no temp file is written, none remains. -/
theorem disallowed_extension_rejected (filename : String) (size : Nat)
    (uuid task_id : String) (brokerUp : Bool)
    (hext : allowedFileExtensions.contains (lowerStr (splitextExt filename))
      = false) :
    start_classification filename size uuid task_id brokerUp =
      { httpStatus := 415, brokerOps := [], tempFilesWritten := [],
        tempFilesRemaining := [] } := by
  have hmem : lowerStr (splitextExt filename) ∉ allowedFileExtensions := by
    simpa using hext
  simp [start_classification, hmem]

/-- C7 (witness): the upload `x.xyz` (as in spec scenario S2). -/
theorem disallowed_extension_rejected_witness :
    start_classification "x.xyz" 10 "u1" "t1" true =
      { httpStatus := 415, brokerOps := [], tempFilesWritten := [],
        tempFilesRemaining := [] } :=
  disallowed_extension_rejected "x.xyz" 10 "u1" "t1" true (by decide)

theorem clampTarget_bounds (st : ScalingState) (target : Nat)
    (hmm : st.worker_min_count ≤ st.worker_max_count) :
    st.worker_min_count ≤ clampTarget st target
      ∧ clampTarget st target ≤ st.worker_max_count := by
  simp only [clampTarget]
  split_ifs <;> omega

theorem scale_workers_inv (st : ScalingState) (target now : Nat) (ok : Bool)
    (h1 : st.worker_min_count ≤ st.current_worker_count)
    (h2 : st.current_worker_count ≤ st.worker_max_count) :
    (scale_workers st target now ok).worker_min_count = st.worker_min_count
    ∧ (scale_workers st target now ok).worker_max_count
      = st.worker_max_count
    ∧ (scale_workers st target now ok).worker_min_count
      ≤ (scale_workers st target now ok).current_worker_count
    ∧ (scale_workers st target now ok).current_worker_count
      ≤ (scale_workers st target now ok).worker_max_count := by
  have hc := clampTarget_bounds st target (h1.trans h2)
  unfold scale_workers
  split_ifs
  · exact ⟨rfl, rfl, h1, h2⟩
  · exact ⟨rfl, rfl, hc.1, hc.2⟩
  · exact ⟨rfl, rfl, h1, h2⟩

theorem check_and_apply_inv (st : ScalingState)
    (q w now : Nat) (ok : Bool)
    (h1 : st.worker_min_count ≤ st.current_worker_count)
    (h2 : st.current_worker_count ≤ st.worker_max_count) :
    (check_and_apply_scaling st q w now ok).worker_min_count
      = st.worker_min_count
    ∧ (check_and_apply_scaling st q w now ok).worker_max_count
      = st.worker_max_count
    ∧ (check_and_apply_scaling st q w now ok).worker_min_count
      ≤ (check_and_apply_scaling st q w now ok).current_worker_count
    ∧ (check_and_apply_scaling st q w now ok).current_worker_count
      ≤ (check_and_apply_scaling st q w now ok).worker_max_count := by
  unfold check_and_apply_scaling
  split_ifs
  · exact scale_workers_inv st _ now ok h1 h2
  · exact scale_workers_inv st _ now ok h1 h2
  · exact ⟨rfl, rfl, h1, h2⟩

theorem scalingStep_inv (st : ScalingState) (e : ScalingEvent)
    (h1 : st.worker_min_count ≤ st.current_worker_count)
    (h2 : st.current_worker_count ≤ st.worker_max_count) :
    (scalingStep st e).worker_min_count = st.worker_min_count
    ∧ (scalingStep st e).worker_max_count = st.worker_max_count
    ∧ (scalingStep st e).worker_min_count
      ≤ (scalingStep st e).current_worker_count
    ∧ (scalingStep st e).current_worker_count
      ≤ (scalingStep st e).worker_max_count := by
  cases e with
  | monitor q w now ok =>
      simp only [scalingStep]
      split_ifs
      · exact ⟨rfl, rfl, h1, h2⟩
      · exact check_and_apply_inv st q w now ok h1 h2
  | manual target now ok =>
      simpa only [scalingStep] using scale_workers_inv st target now ok h1 h2

/-- C8: starting from any configuration whose initial worker count obeys
`MIN_WORKERS ≤ current_worker_count ≤ MAX_WORKERS` (so in particular the
defaults min 2 ≤ 3 ≤ max 10), every reachable state — under any sequence
of monitor ticks and manual `POST /scaling/workers/n` requests — keeps
the configured bounds unchanged and keeps
`worker_min_count ≤ current_worker_count ≤ worker_max_count`, because
`scale_workers` clamps every applied target into the bounds. -/
theorem scaling_bounds_invariant (init : ScalingState)
    (events : List ScalingEvent)
    (h1 : init.worker_min_count ≤ init.current_worker_count)
    (h2 : init.current_worker_count ≤ init.worker_max_count) :
    (scalingRun init events).worker_min_count = init.worker_min_count
    ∧ (scalingRun init events).worker_max_count = init.worker_max_count
    ∧ (scalingRun init events).worker_min_count
      ≤ (scalingRun init events).current_worker_count
    ∧ (scalingRun init events).current_worker_count
      ≤ (scalingRun init events).worker_max_count := by
  induction events generalizing init with
  | nil => exact ⟨rfl, rfl, h1, h2⟩
  | cons e rest ih =>
      have hs := scalingStep_inv init e h1 h2
      have hr := ih (scalingStep init e) hs.2.2.1 hs.2.2.2
      refine ⟨?_, ?_, ?_, ?_⟩
      · simpa [scalingRun, List.foldl_cons] using hr.1.trans hs.1
      · simpa [scalingRun, List.foldl_cons] using hr.2.1.trans hs.2.1
      · simpa [scalingRun, List.foldl_cons] using hr.2.2.1
      · simpa [scalingRun, List.foldl_cons] using hr.2.2.2

/-- C8 (witness): the default configuration after a manual request for 20
workers followed by a monitor tick under heavy load. -/
theorem scaling_bounds_invariant_witness :
    (scalingRun defaultScalingState
        [ScalingEvent.manual 20 100 true,
         ScalingEvent.monitor 100 10 200 true]).worker_min_count
      = defaultScalingState.worker_min_count
    ∧ (scalingRun defaultScalingState
        [ScalingEvent.manual 20 100 true,
         ScalingEvent.monitor 100 10 200 true]).worker_max_count
      = defaultScalingState.worker_max_count
    ∧ (scalingRun defaultScalingState
        [ScalingEvent.manual 20 100 true,
         ScalingEvent.monitor 100 10 200 true]).worker_min_count
      ≤ (scalingRun defaultScalingState
        [ScalingEvent.manual 20 100 true,
         ScalingEvent.monitor 100 10 200 true]).current_worker_count
    ∧ (scalingRun defaultScalingState
        [ScalingEvent.manual 20 100 true,
         ScalingEvent.monitor 100 10 200 true]).current_worker_count
      ≤ (scalingRun defaultScalingState
        [ScalingEvent.manual 20 100 true,
         ScalingEvent.monitor 100 10 200 true]).worker_max_count :=
  scaling_bounds_invariant defaultScalingState
    [ScalingEvent.manual 20 100 true, ScalingEvent.monitor 100 10 200 true]
    (by decide) (by decide)

theorem scale_workers_changed (st : ScalingState) (target now : Nat)
    (ok : Bool)
    (h : (scale_workers st target now ok).current_worker_count
      ≠ st.current_worker_count) :
    (scale_workers st target now ok).last_scaling_time = now := by
  unfold scale_workers at h ⊢
  split_ifs at h ⊢ <;> simp_all

theorem check_and_apply_changed (st : ScalingState) (q w now : Nat)
    (ok : Bool)
    (h : (check_and_apply_scaling st q w now ok).current_worker_count
      ≠ st.current_worker_count) :
    (check_and_apply_scaling st q w now ok).last_scaling_time = now := by
  unfold check_and_apply_scaling at h ⊢
  split_ifs at h ⊢
  · exact scale_workers_changed st _ now ok h
  · exact scale_workers_changed st _ now ok h
  · exact absurd rfl h

/-- C9 (counterexample): from the default state, two manual
`POST /scaling/workers/n` requests at times 10 and 11 both change the
worker count (3 → 5 → 4): two consecutive scaling actions only 1 second
apart, so the 60-second cooldown claim fails for manual actions. -/
theorem cooldown_counterexample :
    actionTimes defaultScalingState
        [ScalingEvent.manual 5 10 true, ScalingEvent.manual 4 11 true]
      = [10, 11]
    ∧ gapsAtLeast 60 (actionTimes defaultScalingState
        [ScalingEvent.manual 5 10 true, ScalingEvent.manual 4 11 true])
      = false := by
  exact ⟨by decide, by decide⟩

/-- C9 (amended): the cooldown guard lives only in `monitor_loop`: a
monitor tick that changes the worker count can happen only at least 60
seconds after `last_scaling_time`, and every scaling action (monitor or
manual) that changes the count records its own time in
`last_scaling_time` — so two consecutive scaling actions whose second
member is monitor-initiated are at least 60 seconds apart, while manual
`POST /scaling/workers/n` actions bypass the cooldown entirely. -/
theorem monitor_scaling_respects_cooldown (st : ScalingState)
    (q w t n : Nat) (ok : Bool) :
    ((scalingStep st (.monitor q w t ok)).current_worker_count
        ≠ st.current_worker_count →
      st.last_scaling_time + 60 ≤ t
      ∧ (scalingStep st (.monitor q w t ok)).last_scaling_time = t)
    ∧ ((scalingStep st (.manual n t ok)).current_worker_count
        ≠ st.current_worker_count →
      (scalingStep st (.manual n t ok)).last_scaling_time = t) := by
  constructor
  · intro h
    by_cases hcd : t - st.last_scaling_time < 60
    · exact absurd (by simp [scalingStep, hcd]) h
    · have h2 : (check_and_apply_scaling st q w t ok).current_worker_count
          ≠ st.current_worker_count := by
        simpa [scalingStep, hcd] using h
      refine ⟨by omega, ?_⟩
      simpa [scalingStep, hcd] using check_and_apply_changed st q w t ok h2
  · intro h
    exact scale_workers_changed st n t ok (by simpa [scalingStep] using h)

/-- C9 (witness): from the default state (last scaling at time 0), a
monitor tick at time 100 with 100 queued tasks scales up and indeed
satisfies `0 + 60 ≤ 100`; a manual request for 7 workers at time 100 also
records its time. -/
theorem monitor_scaling_respects_cooldown_witness :
    (defaultScalingState.last_scaling_time + 60 ≤ 100
      ∧ (scalingStep defaultScalingState
          (.monitor 100 3 100 true)).last_scaling_time = 100)
    ∧ (scalingStep defaultScalingState
        (.manual 7 100 true)).last_scaling_time = 100 := by
  have h := monitor_scaling_respects_cooldown defaultScalingState
    100 3 100 7 true
  exact ⟨h.1 (by decide), h.2 (by decide)⟩

theorem getField_setField (r : List (String × JVal)) (key : String)
    (v : JVal) (key2 : String) :
    getField (setField r key v) key2
      = if key = key2 then some v else getField r key2 := by
  induction r with
  | nil => simp [setField, getField]
  | cons p rest ih =>
      obtain ⟨k, w⟩ := p
      by_cases hk : k = key
      · subst hk
        simp only [setField, if_pos rfl, getField]
        by_cases hk2 : k = key2 <;> simp [hk2, getField]
      · simp only [setField, if_neg hk, getField]
        by_cases hk2 : k = key2
        · subst hk2
          have hne : key ≠ k := fun h => hk h.symm
          simp [getField, hne, ih]
        · simp [hk2, ih]

/-- C10: `update_task_status` on an existing record rewrites only the
`status` field and — when new values are supplied — `predicted_type`,
`success` and `error`: `task_id`, `filename`, every other field, and each
of the three optional fields whose argument is `None` keep their previous
values, while `status` always becomes the new status. -/
theorem update_task_status_frame (record : List (String × JVal))
    (statusArg : String) (predicted_type : Option String)
    (success : Option Bool) (error : Option String) :
    update_task_status (some record) statusArg predicted_type success error
      = some (applyStatusUpdate record statusArg predicted_type success
          error)
    ∧ (∀ k, k ≠ "status" → k ≠ "predicted_type" → k ≠ "success" →
        k ≠ "error" →
        getField (applyStatusUpdate record statusArg predicted_type success
          error) k = getField record k)
    ∧ getField (applyStatusUpdate record statusArg predicted_type success
        error) "task_id" = getField record "task_id"
    ∧ getField (applyStatusUpdate record statusArg predicted_type success
        error) "filename" = getField record "filename"
    ∧ getField (applyStatusUpdate record statusArg predicted_type success
        error) "status" = some (.str statusArg)
    ∧ (predicted_type = none →
        getField (applyStatusUpdate record statusArg predicted_type success
          error) "predicted_type" = getField record "predicted_type")
    ∧ (success = none →
        getField (applyStatusUpdate record statusArg predicted_type success
          error) "success" = getField record "success")
    ∧ (error = none →
        getField (applyStatusUpdate record statusArg predicted_type success
          error) "error" = getField record "error") := by
  refine ⟨rfl, ?_, ?_, ?_, ?_, ?_, ?_, ?_⟩
  · intro k hk1 hk2 hk3 hk4
    rcases predicted_type with _ | p <;> rcases success with _ | b <;>
      rcases error with _ | e <;>
      simp [applyStatusUpdate, getField_setField, Ne.symm hk1, Ne.symm hk2,
        Ne.symm hk3, Ne.symm hk4]
  · rcases predicted_type with _ | p <;> rcases success with _ | b <;>
      rcases error with _ | e <;>
      simp [applyStatusUpdate, getField_setField]
  · rcases predicted_type with _ | p <;> rcases success with _ | b <;>
      rcases error with _ | e <;>
      simp [applyStatusUpdate, getField_setField]
  · rcases predicted_type with _ | p <;> rcases success with _ | b <;>
      rcases error with _ | e <;>
      simp [applyStatusUpdate, getField_setField]
  · intro hp
    subst hp
    rcases success with _ | b <;> rcases error with _ | e <;>
      simp [applyStatusUpdate, getField_setField]
  · intro hb
    subst hb
    rcases predicted_type with _ | p <;> rcases error with _ | e <;>
      simp [applyStatusUpdate, getField_setField]
  · intro he
    subst he
    rcases predicted_type with _ | p <;> rcases success with _ | b <;>
      simp [applyStatusUpdate, getField_setField]

/-- C10 (witness): updating a concrete pending record to `completed` with
a predicted type and success flag but no error leaves `task_id`,
`filename` and the absent `error` field untouched. -/
theorem update_task_status_frame_witness :
    getField (applyStatusUpdate
        [("task_id", JVal.str "t1"), ("filename", JVal.str "f.pdf"),
          ("status", JVal.str "pending")]
        "completed" (some "invoice") (some true) none) "task_id"
      = getField
        [("task_id", JVal.str "t1"), ("filename", JVal.str "f.pdf"),
          ("status", JVal.str "pending")] "task_id"
    ∧ getField (applyStatusUpdate
        [("task_id", JVal.str "t1"), ("filename", JVal.str "f.pdf"),
          ("status", JVal.str "pending")]
        "completed" (some "invoice") (some true) none) "error"
      = getField
        [("task_id", JVal.str "t1"), ("filename", JVal.str "f.pdf"),
          ("status", JVal.str "pending")] "error" := by
  have h := update_task_status_frame
    [("task_id", JVal.str "t1"), ("filename", JVal.str "f.pdf"),
      ("status", JVal.str "pending")]
    "completed" (some "invoice") (some true) none
  exact ⟨h.2.1 "task_id" (by decide) (by decide) (by decide) (by decide),
    h.2.2.2.2.2.2.2 rfl⟩

end Pipeline
